import Mathlib

/-!
Shallow embedding of the MediaStatus plugin core (src/index.tsx): the two
backend adapters (Jellyfin, Plex), the presentation formatter, and the
presence controller.  JavaScript numbers that the program only ever uses as
non-negative integers are embedded as `Nat`.  A possibly-missing number that
every consumer guards with JS truthiness before using (Jellyfin RunTimeTicks)
is encoded as a `Nat` with `0` for absent, since `0` and `undefined` are then
indistinguishable; the raw playback positions (Jellyfin PositionTicks, Plex
viewOffset) and the Plex duration are `Option Nat`, because the source
divides the raw position unguarded, and an absent position with a truthy
duration makes that division produce NaN, which the `JsNum` type carries
explicitly.  Optional strings/objects are `Option`; JS
truthiness of a string is "present and non-empty".  Fallible effects (HTTP
fetch, JSON parse, asset resolution) are reified as explicit data so that the
catch-all error handling of the source becomes explicit `Option`/failure
branches.  Arithmetic on media times is exact (integers/rationals); the
source values are far below 2^53 so JS float arithmetic is exact there too.
-/

/-- Media type tag, from the `MediaType` enum in src/index.tsx. -/
inductive MediaType where
  | movie
  | episode
  | audio
  | video
  | photo
  | unknown
deriving DecidableEq, Repr

/-- Backend selection, from the `ServiceType` enum. -/
inductive ServiceType where
  | jellyfin
  | plex
deriving DecidableEq, Repr

/-- Episode label format, from the `DisplayFormat` enum. -/
inductive DisplayFormat where
  | natural
  | short
  | minimal
deriving DecidableEq, Repr

/-- The plugin settings read by the core (`settings.store`).  String fields
use `""` for unset (JS falsy). -/
structure Config where
  serverType : ServiceType
  serverUrl : String
  apiKey : String
  episodeFormat : DisplayFormat
  showTimestamps : Bool
  serverName : String
  hideWhenPaused : Bool
  hideWhenOtherActivity : Bool
deriving DecidableEq, Repr

/-- A JS number as the unguarded progress division can produce it: NaN when
the raw position is `undefined` (in JS `undefined / d = NaN` and
`Math.round(NaN) = NaN`), an exact natural otherwise. -/
inductive JsNum where
  | nan
  | int (n : Nat)
deriving DecidableEq, Repr

/-- The shared `MediaData` model (interface MediaData in src/index.tsx). -/
structure MediaData where
  title : String
  type : MediaType
  progress : Option JsNum := none
  isPaused : Bool
  imageUrl : Option String := none
  duration : Option Nat := none
  position : Option Nat := none
  series : Option String := none
  season : Option Nat := none
  episode : Option Nat := none
  year : Option Nat := none
  studio : Option String := none
  artist : Option String := none
  albumTitle : Option String := none
  albumArtist : Option String := none
  photographer : Option String := none
deriving DecidableEq, Repr

/-- JS truthiness for an optional number: present and non-zero. -/
def natTruthy : Option Nat → Bool
  | none => false
  | some n => n ≠ 0

/-- JS truthiness for an optional string: present and non-empty. -/
def strTruthy : Option String → Bool
  | none => false
  | some s => s ≠ ""

/-- JS string interpolation of a possibly-undefined value: template literals
render `undefined` as the text "undefined". -/
def jsShowStr : Option String → String
  | none => "undefined"
  | some s => s

/-- JS `a || b` on optional strings (falsy = undefined or empty). -/
def jsOrStr (a b : Option String) : Option String :=
  match a with
  | some s => if s = "" then b else some s
  | none => b

/-- `Math.round((p / d) * 100)` for non-negative integers `p`, `d` with
`d ≠ 0`, computed exactly: round-half-up of the rational `100*p/d`, i.e.
`⌊(200*p + d) / (2*d)⌋`. -/
def jsRound100 (p d : Nat) : Nat := (200 * p + d) / (2 * d)

/-- `Math.round((p / d) * 100)` for a raw, possibly-absent position `p` and
a truthy duration `d`: an absent position propagates as NaN, a present one
gives the exact round-half-up of `100*p/d`. -/
def jsRoundDiv100 (p : Option Nat) (d : Nat) : JsNum :=
  match p with
  | none => JsNum.nan
  | some p => JsNum.int (jsRound100 p d)

/-- `const toMs = (ticks) => Math.floor(ticks / 10000)` from
fetchJellyfinData: 100-nanosecond ticks to milliseconds. -/
def toMs (ticks : Nat) : Nat := ticks / 10000

/-- Outcome of an HTTP fetch plus body parse: the fetch itself may throw
(transport error), else we get a response with an `ok` flag and a body that
either parses to the expected shape or not (`none` = parse/shape failure,
which in the source throws inside the `try` and is caught). -/
inductive FetchResult (α : Type) where
  | transportError : FetchResult α
  | response (ok : Bool) (body : Option α) : FetchResult α
deriving DecidableEq, Repr

/-- The fields of a Jellyfin `NowPlayingItem` that the adapter reads.
`RunTimeTicks` uses `0` for absent (JS falsy). `ItemType` is the JSON field
named `Type` in the source. `ImageTagsPrimary` is `ImageTags?.Primary`. -/
structure JellyItem where
  Name : String
  ItemType : String
  RunTimeTicks : Nat
  Id : String
  ImageTagsPrimary : Option String
  ProductionYear : Option Nat
  SeriesName : Option String
  ParentIndexNumber : Option Nat
  IndexNumber : Option Nat
  Artists : List String
  AlbumArtist : Option String
  Album : Option String
deriving DecidableEq, Repr

/-- The fields of a Jellyfin session `PlayState` the adapter reads;
`PositionTicks` is `none` when the key is missing from the JSON. -/
structure JellyPlayState where
  PositionTicks : Option Nat
  IsPaused : Bool
deriving DecidableEq, Repr

/-- One entry of the Jellyfin `/Sessions` list. -/
structure JellySession where
  NowPlayingItem : Option JellyItem
  PlayState : JellyPlayState
deriving DecidableEq, Repr

/-- JS `String.prototype.toLowerCase` as the source uses it: a
per-character lowercase map (all strings compared against are ASCII). -/
def jsToLower (s : String) : String := String.mk (s.data.map Char.toLower)

/-- The `getMediaType` switch inside fetchJellyfinData. -/
def jellyMediaType (t : String) : MediaType :=
  match jsToLower t with
  | "movie" => .movie
  | "episode" => .episode
  | "audio" => .audio
  | "video" => .video
  | "photo" => .photo
  | _ => .unknown

/-- The mapping stage of fetchJellyfinData: builds the `MediaData` from the
found playing session (`baseData` plus the per-type variant switch). -/
def jellyfinMedia (cfg : Config) (s : JellySession) (item : JellyItem) : MediaData :=
  let playState := s.PlayState
  let base : MediaData := {
    title := item.Name
    type := jellyMediaType item.ItemType
    progress := if item.RunTimeTicks ≠ 0 then
        some (jsRoundDiv100 playState.PositionTicks item.RunTimeTicks)
      else none
    isPaused := playState.IsPaused
    imageUrl := if strTruthy item.ImageTagsPrimary then
        some (cfg.serverUrl ++ "/Items/" ++ item.Id ++ "/Images/Primary?api_key=" ++ cfg.apiKey)
      else none
    duration := if item.RunTimeTicks ≠ 0 then some (toMs item.RunTimeTicks) else none
    position := if natTruthy playState.PositionTicks then
        some (toMs (playState.PositionTicks.getD 0))
      else none
    year := item.ProductionYear }
  match base.type with
  | .episode => { base with
      series := item.SeriesName
      season := item.ParentIndexNumber
      episode := item.IndexNumber }
  | .audio => { base with
      artist := item.Artists.head?
      albumArtist := item.AlbumArtist
      albumTitle := item.Album }
  | _ => base

/-- fetchJellyfinData: returns `none` when the server URL or API key is
unset, on transport error, on a non-ok response, on a malformed body, and
when no session has a now-playing item; otherwise maps the first playing
session. -/
def fetchJellyfinData (cfg : Config) (resp : FetchResult (List JellySession)) :
    Option MediaData :=
  if cfg.serverUrl = "" ∨ cfg.apiKey = "" then none else
  match resp with
  | .transportError => none
  | .response ok body =>
    if ok = false then none else
    match body with
    | none => none
    | some sessions =>
      match sessions.find? (fun s => s.NowPlayingItem.isSome) with
      | none => none
      | some s =>
        match s.NowPlayingItem with
        | none => none
        | some item => some (jellyfinMedia cfg s item)

/-- One Plex `MediaContainer.Metadata` entry, with the fields the adapter
reads.  `duration` and `viewOffset` are `none` when the key is missing from
the JSON.  `sessType` is the JSON field named `type`; `playerState` is
`Player.state`. -/
structure PlexSession where
  title : String
  sessType : String
  duration : Option Nat
  viewOffset : Option Nat
  thumb : Option String
  year : Option Nat
  studio : Option String
  playerState : String
  grandparentTitle : Option String
  parentTitle : Option String
  parentIndex : Option Nat
  index : Option Nat
  originalTitle : Option String
deriving DecidableEq, Repr

/-- The `getMediaType` switch inside fetchPlexData. -/
def plexMediaType (t : String) : MediaType :=
  match jsToLower t with
  | "movie" => .movie
  | "episode" => .episode
  | "track" => .audio
  | "photo" => .photo
  | "clip" => .video
  | _ => .unknown

/-- The mapping stage of fetchPlexData: builds the `MediaData` from the first
metadata entry (`baseData` plus the per-type variant switch). -/
def plexMedia (cfg : Config) (s : PlexSession) : MediaData :=
  let base : MediaData := {
    title := s.title
    type := plexMediaType s.sessType
    progress := if natTruthy s.duration then
        some (jsRoundDiv100 s.viewOffset (s.duration.getD 0))
      else none
    isPaused := s.playerState ≠ "playing"
    imageUrl := if strTruthy s.thumb then
        some (cfg.serverUrl ++ s.thumb.getD ("") ++ "?X-Plex-Token=" ++ cfg.apiKey)
      else none
    duration := s.duration
    position := s.viewOffset
    year := s.year
    studio := s.studio }
  match base.type with
  | .episode => { base with
      series := s.grandparentTitle
      season := s.parentIndex
      episode := s.index }
  | .audio => { base with
      artist := jsOrStr s.originalTitle s.grandparentTitle
      albumArtist := s.grandparentTitle
      albumTitle := s.parentTitle }
  | .photo => { base with photographer := jsOrStr s.originalTitle none }
  | _ => base

/-- fetchPlexData: `none` when the server URL or token is unset, on transport
error, non-ok response, malformed body, or empty metadata list; otherwise
maps the first metadata entry. -/
def fetchPlexData (cfg : Config) (resp : FetchResult (List PlexSession)) :
    Option MediaData :=
  if cfg.serverUrl = "" ∨ cfg.apiKey = "" then none else
  match resp with
  | .transportError => none
  | .response ok body =>
    if ok = false then none else
    match body with
    | none => none
    | some metadata =>
      match metadata.head? with
      | none => none
      | some s => some (plexMedia cfg s)

/-- `n.toString().padStart(2, "0")` for a natural number (whose decimal
string is never empty, so at most one "0" is prepended). -/
def pad2 (n : Nat) : String :=
  let s := toString n
  if s.length < 2 then ("0" ++ s) else s

/-- formatEpisodeNumber from src/index.tsx, with the episode format taken
as a parameter (the source reads `settings.store.episodeFormat`).  Returns
"" when either number is JS-falsy (missing or zero). -/
def formatEpisodeNumber (fmt : DisplayFormat) (season episode : Option Nat) : String :=
  if natTruthy season = false ∨ natTruthy episode = false then ("") else
  let s := season.getD 0
  let e := episode.getD 0
  match fmt with
  | .short => "S" ++ pad2 s ++ "E" ++ pad2 e
  | .minimal => toString s ++ "x" ++ pad2 e
  | .natural => "Season " ++ toString s ++ " Episode " ++ toString e

/-- getServerName from src/index.tsx. -/
def getServerName (cfg : Config) : String :=
  if cfg.serverName ≠ "" then cfg.serverName
  else if cfg.serverType = ServiceType.jellyfin then ("Jellyfin") else ("Plex")

/-- The constant Discord application id of the plugin. -/
def DISCORD_APP_ID : String := "1333493119525720082"

/-- getDetails (closure inside updatePresence): the details line per media
type.  Template interpolation of possibly-undefined strings renders
"undefined", as in JS. -/
def getDetails (cfg : Config) (m : MediaData) : String :=
  match m.type with
  | .episode =>
      jsShowStr m.series ++ " - " ++ formatEpisodeNumber cfg.episodeFormat m.season m.episode
  | .audio =>
      jsShowStr m.artist ++
        (if strTruthy m.albumTitle then (" - " ++ m.albumTitle.getD ("")) else (""))
  | .movie =>
      m.title ++ (if natTruthy m.year then (" (" ++ toString (m.year.getD 0) ++ ")") else (""))
  | .photo =>
      "Viewing " ++
        (if strTruthy m.photographer then (m.photographer.getD ("") ++ "\x27s ") else ("")) ++
        "photo"
  | _ => m.title

/-- The `parts` list built by getState: episode title is unshifted for an
Episode, "from {albumTitle}" for Audio with a truthy album title. -/
def stateParts (m : MediaData) : List String :=
  let parts : List String := []
  let parts := if m.type = MediaType.episode then m.title :: parts else parts
  let parts :=
    if m.type = MediaType.audio ∧ strTruthy m.albumTitle then
      ("from " ++ m.albumTitle.getD ("")) :: parts
    else parts
  parts

/-- The literal join separator in the source, byte-for-byte: the UTF-8 of
the middle dot mis-decoded once (U+00E2 U+20AC U+00A2). -/
def stateSep : String := " â€¢ "

/-- getState (closure inside updatePresence): `parts.join(sep) || "Watching"`
— the JS `||` falls back when the joined string is empty. -/
def getState (m : MediaData) : String :=
  let joined := String.intercalate stateSep (stateParts m)
  if joined = "" then ("Watching") else joined

/-- Activity timestamps (epoch milliseconds); `endTs` is the field named
`end` in the source. -/
structure Timestamps where
  start : Int
  endTs : Int
deriving DecidableEq, Repr

/-- Activity assets payload. -/
structure Assets where
  large_image : String
  large_text : String
  small_image : String
  small_text : String
deriving DecidableEq, Repr

/-- The outbound activity payload assembled by updatePresence. -/
structure Activity where
  application_id : String
  name : String
  details : String
  state : String
  assets : Option Assets
  timestamps : Option Timestamps
  type : Nat
  flags : Nat
deriving DecidableEq, Repr

/-- What one poll cycle delivers to the sink: a clear (null activity) or a
populated activity, always tagged with socketId "MediaStatus". -/
inductive Emission where
  | clear
  | activity (a : Activity)
deriving DecidableEq, Repr

/-- An entry of `PresenceStore.getActivities()` as far as updatePresence
reads it. -/
structure ActivityEntry where
  application_id : String
deriving DecidableEq, Repr

/-- The timestamps computed by updatePresence: present only when
`showTimestamps` is set and the duration is truthy; `start = now - position`
(position defaulting to 0), `end = now + (duration - position)`. -/
def mkTimestamps (cfg : Config) (m : MediaData) (now : Int) : Option Timestamps :=
  if cfg.showTimestamps ∧ natTruthy m.duration then
    some { start := now - (m.position.getD 0 : Nat)
           endTs := now + ((m.duration.getD 0 : Int) - (m.position.getD 0 : Nat)) }
  else none

/-- updatePresence, one poll cycle after the adapter returned `mediaData`.
`activities` is the sink's current activity list, `now` the clock, and
`resolveAsset` the asset lookup (`none` = the lookup threw, which the outer
catch turns into a clear).  Returns what is dispatched to the sink. -/
def updatePresence (cfg : Config) (mediaData : Option MediaData)
    (activities : List ActivityEntry) (now : Int)
    (resolveAsset : String → Option String) : Emission :=
  match mediaData with
  | none => .clear
  | some m =>
    if m.isPaused ∧ cfg.hideWhenPaused then .clear
    else if cfg.hideWhenOtherActivity ∧
        activities.any (fun a => a.application_id ≠ DISCORD_APP_ID) then .clear
    else
      let assetsRes : Except Unit (Option Assets) :=
        if strTruthy m.imageUrl then
          match resolveAsset (m.imageUrl.getD ("")),
                resolveAsset (cfg.serverUrl ++ "/web/favicon.png") with
          | some li, some si =>
              .ok (some { large_image := li, large_text := m.title,
                          small_image := si, small_text := getServerName cfg })
          | _, _ => .error ()
        else .ok none
      match assetsRes with
      | .error _ => .clear
      | .ok assets =>
        .activity {
          application_id := DISCORD_APP_ID
          name := m.title
          details := getDetails cfg m
          state := getState m
          assets := assets
          timestamps := mkTimestamps cfg m now
          type := if m.type = MediaType.audio then 2 else 3
          flags := 1 }

/-- The adapter dispatch at the top of updatePresence: Jellyfin or Plex by
configuration.  Each backend's (unparsed) exchange is passed explicitly. -/
def adapterFetch (cfg : Config) (jellyResp : FetchResult (List JellySession))
    (plexResp : FetchResult (List PlexSession)) : Option MediaData :=
  if cfg.serverType = ServiceType.jellyfin then fetchJellyfinData cfg jellyResp
  else fetchPlexData cfg plexResp

/-- One full poll cycle: adapter dispatch then updatePresence. -/
def poll (cfg : Config) (jellyResp : FetchResult (List JellySession))
    (plexResp : FetchResult (List PlexSession)) (activities : List ActivityEntry)
    (now : Int) (resolveAsset : String → Option String) : Emission :=
  updatePresence cfg (adapterFetch cfg jellyResp plexResp) activities now resolveAsset

/-- Controller state: the interval timer handle (`this.interval`), plus the
host scheduler's book-keeping of which handles have been cancelled via
clearInterval. -/
structure ControllerState where
  interval : Option Nat
  cancelled : List Nat
deriving DecidableEq, Repr

/-- clearPresence: dispatches exactly one null-activity (clear) signal. -/
def clearPresence : List Emission := [Emission.clear]

/-- stop from src/index.tsx: cancel the timer if one is live, reset the
handle to empty, then clearPresence.  Returns the new state and the
emissions delivered to the sink during the call. -/
def ControllerState.stop (st : ControllerState) : ControllerState × List Emission :=
  let st' :=
    match st.interval with
    | some h => { st with interval := none, cancelled := st.cancelled ++ [h] }
    | none => st
  (st', clearPresence)

/-- One scheduler tick after a given point: the recurring callback runs (and
emits the poll outcome `em`) only when a live, uncancelled timer exists. -/
def tickEmissions (st : ControllerState) (em : Emission) : List Emission :=
  match st.interval with
  | some h => if h ∈ st.cancelled then [] else [em]
  | none => []

/-- Emissions over `n` subsequent scheduler ticks (the controller state is
not changed by a tick). -/
def runTicks (st : ControllerState) (em : Emission) : Nat → List Emission
  | 0 => []
  | n + 1 => tickEmissions st em ++ runTicks st em n

/-- Variant-field discipline on a `MediaData`: fields outside the active
type's variant are absent. -/
def variantOnly (m : MediaData) : Prop :=
  (m.type ≠ MediaType.episode → m.series = none ∧ m.season = none ∧ m.episode = none)
  ∧ (m.type ≠ MediaType.audio → m.artist = none ∧ m.albumArtist = none ∧ m.albumTitle = none)
  ∧ (m.type ≠ MediaType.photo → m.photographer = none)

/-- A fully-set Jellyfin configuration used in concrete checks. -/
def cfgJelly : Config := {
  serverType := ServiceType.jellyfin
  serverUrl := "http://srv"
  apiKey := "k"
  episodeFormat := DisplayFormat.natural
  showTimestamps := true
  serverName := ""
  hideWhenPaused := true
  hideWhenOtherActivity := false }

/-- A configuration with the server URL unset. -/
def cfgEmptyUrl : Config := {
  serverType := ServiceType.jellyfin
  serverUrl := ""
  apiKey := "k"
  episodeFormat := DisplayFormat.natural
  showTimestamps := true
  serverName := ""
  hideWhenPaused := true
  hideWhenOtherActivity := false }

/-- A Jellyfin movie item whose playback position exceeds its runtime
(upstream data the spec says may occur and must not crash downstream). -/
def itemOverrun : JellyItem := {
  Name := "M"
  ItemType := "Movie"
  RunTimeTicks := 10000
  Id := "i"
  ImageTagsPrimary := none
  ProductionYear := none
  SeriesName := none
  ParentIndexNumber := none
  IndexNumber := none
  Artists := []
  AlbumArtist := none
  Album := none }

/-- A session playing `itemOverrun` with position twice the runtime. -/
def sessOverrun : JellySession := {
  NowPlayingItem := some itemOverrun
  PlayState := { PositionTicks := some 20000, IsPaused := false } }

/-- A session playing `itemOverrun` whose PlayState lacks the PositionTicks
key entirely (Jellyfin omits null fields). -/
def sessNoPos : JellySession := {
  NowPlayingItem := some itemOverrun
  PlayState := { PositionTicks := none, IsPaused := false } }

/-- A well-formed Jellyfin episode item (50,000,000 runtime ticks). -/
def itemEpisode : JellyItem := {
  Name := "Pilot"
  ItemType := "Episode"
  RunTimeTicks := 50000000
  Id := "ep1"
  ImageTagsPrimary := none
  ProductionYear := some 2020
  SeriesName := some "Show"
  ParentIndexNumber := some 1
  IndexNumber := some 2
  Artists := []
  AlbumArtist := none
  Album := none }

/-- A paused session playing `itemEpisode`. -/
def sessEpisodePaused : JellySession := {
  NowPlayingItem := some itemEpisode
  PlayState := { PositionTicks := some 10000000, IsPaused := true } }

/-- A successful Jellyfin exchange whose only session is `sessEpisodePaused`. -/
def respEpisodePaused : FetchResult (List JellySession) :=
  FetchResult.response true (some [sessEpisodePaused])

/-- An unpaused movie with a known duration and position, no image. -/
def mMovieTs : MediaData := {
  title := "A Movie"
  type := MediaType.movie
  isPaused := false
  duration := some 100
  position := some 40 }

/-- The activity `updatePresence cfgJelly (some mMovieTs) [] 1000 _` emits. -/
def actMovieTs : Activity := {
  application_id := DISCORD_APP_ID
  name := "A Movie"
  details := "A Movie"
  state := "Watching"
  assets := none
  timestamps := some { start := 960, endTs := 1060 }
  type := 3
  flags := 1 }

/-- Round-half-up of `100*p/d` never exceeds 100 when `p ≤ d`. -/
theorem jsRound100_le (p d : Nat) (hd : d ≠ 0) (h : p ≤ d) : jsRound100 p d ≤ 100 := by
  have hd' : 0 < d := Nat.pos_of_ne_zero hd
  have h2 : 0 < 2 * d := by omega
  have hlt : (200 * p + d) / (2 * d) < 101 := by
    rw [Nat.div_lt_iff_lt_mul h2]
    nlinarith
  unfold jsRound100
  omega

/-- The head of a list, when it exists, is a member. -/
theorem mem_of_head?_eq_some {α : Type} {l : List α} {a : α} (h : l.head? = some a) :
    a ∈ l := by
  rcases l with _ | ⟨x, xs⟩
  · simp at h
  · simp at h
    rw [h]
    exact List.mem_cons_self _ _

/-- Joining a one-element list ignores the separator. -/
theorem intercalate_singleton (sep x : String) : String.intercalate sep [x] = x := rfl

/-- Joining the empty list gives the empty string. -/
theorem intercalate_nil (sep : String) : String.intercalate sep [] = "" := rfl

/-- A string with the non-empty prefix "from " is never empty. -/
theorem from_append_ne_empty (a : String) : "from " ++ a ≠ "" := by
  intro h
  have := congrArg String.length h
  simp [String.length_append] at this
  exact absurd this.1 (by decide)

/-- The progress field produced by the Jellyfin mapping stage. -/
theorem jellyfinMedia_progress (cfg : Config) (s : JellySession) (item : JellyItem) :
    (jellyfinMedia cfg s item).progress =
      if item.RunTimeTicks ≠ 0 then
        some (jsRoundDiv100 s.PlayState.PositionTicks item.RunTimeTicks)
      else none := by
  unfold jellyfinMedia
  dsimp only
  split <;> rfl

/-- The duration field produced by the Jellyfin mapping stage. -/
theorem jellyfinMedia_duration (cfg : Config) (s : JellySession) (item : JellyItem) :
    (jellyfinMedia cfg s item).duration =
      if item.RunTimeTicks ≠ 0 then some (toMs item.RunTimeTicks) else none := by
  unfold jellyfinMedia
  dsimp only
  split <;> rfl

/-- The position field produced by the Jellyfin mapping stage. -/
theorem jellyfinMedia_position (cfg : Config) (s : JellySession) (item : JellyItem) :
    (jellyfinMedia cfg s item).position =
      if natTruthy s.PlayState.PositionTicks then
        some (toMs (s.PlayState.PositionTicks.getD 0))
      else none := by
  unfold jellyfinMedia
  dsimp only
  split <;> rfl

/-- The progress field produced by the Plex mapping stage. -/
theorem plexMedia_progress (cfg : Config) (s : PlexSession) :
    (plexMedia cfg s).progress =
      if natTruthy s.duration then
        some (jsRoundDiv100 s.viewOffset (s.duration.getD 0))
      else none := by
  unfold plexMedia
  dsimp only
  split <;> rfl

/-- Any successful Jellyfin adapter result comes from an ok response whose
session list has a first playing session, mapped by `jellyfinMedia`. -/
theorem fetchJellyfinData_eq_some {cfg : Config} {resp : FetchResult (List JellySession)}
    {m : MediaData} (h : fetchJellyfinData cfg resp = some m) :
    ∃ sessions s item,
      resp = FetchResult.response true (some sessions) ∧
      sessions.find? (fun s => s.NowPlayingItem.isSome) = some s ∧
      s.NowPlayingItem = some item ∧
      m = jellyfinMedia cfg s item := by
  rcases resp with _ | ⟨ok, body⟩
  · simp [fetchJellyfinData] at h
  · rcases ok with _ | _
    · simp [fetchJellyfinData] at h
    · rcases body with _ | sessions
      · simp [fetchJellyfinData] at h
      · unfold fetchJellyfinData at h
        split at h
        · exact absurd h (by simp)
        · simp only at h
          rcases hf : sessions.find? (fun s => s.NowPlayingItem.isSome) with _ | s
          · rw [hf] at h; simp at h
          · rw [hf] at h
            simp only [reduceIte] at h
            rcases hi : s.NowPlayingItem with _ | item
            · rw [hi] at h; simp at h
            · rw [hi] at h
              simp at h
              exact ⟨sessions, s, item, rfl, hf, hi, h.symm⟩

/-- Any successful Plex adapter result comes from an ok response whose
metadata list has a first entry, mapped by `plexMedia`. -/
theorem fetchPlexData_eq_some {cfg : Config} {resp : FetchResult (List PlexSession)}
    {m : MediaData} (h : fetchPlexData cfg resp = some m) :
    ∃ metadata s,
      resp = FetchResult.response true (some metadata) ∧
      metadata.head? = some s ∧
      m = plexMedia cfg s := by
  rcases resp with _ | ⟨ok, body⟩
  · simp [fetchPlexData] at h
  · rcases ok with _ | _
    · simp [fetchPlexData] at h
    · rcases body with _ | metadata
      · simp [fetchPlexData] at h
      · unfold fetchPlexData at h
        split at h
        · exact absurd h (by simp)
        · simp only at h
          rcases hh : metadata.head? with _ | s
          · rw [hh] at h; simp at h
          · rw [hh] at h
            simp at h
            exact ⟨metadata, s, rfl, hh, h.symm⟩

/-- The Jellyfin mapping stage sets only the active variant's fields. -/
theorem jellyfinMedia_variantOnly (cfg : Config) (s : JellySession) (item : JellyItem) :
    variantOnly (jellyfinMedia cfg s item) := by
  unfold jellyfinMedia variantOnly
  dsimp only
  split <;> simp_all

/-- The Plex mapping stage sets only the active variant's fields. -/
theorem plexMedia_variantOnly (cfg : Config) (s : PlexSession) :
    variantOnly (plexMedia cfg s) := by
  unfold plexMedia variantOnly
  dsimp only
  split <;> simp_all

/-- Case analysis of the parts list built by getState. -/
theorem stateParts_cases (m : MediaData) :
    stateParts m =
      if m.type = MediaType.episode then [m.title]
      else if m.type = MediaType.audio ∧ strTruthy m.albumTitle then
        ["from " ++ m.albumTitle.getD ("")]
      else [] := by
  unfold stateParts
  dsimp only
  rcases htype : m.type <;> simp [htype]

/-- An activity emitted by updatePresence carries exactly the timestamps
computed by `mkTimestamps`. -/
theorem updatePresence_activity_timestamps
    {cfg : Config} {m : MediaData} {acts : List ActivityEntry} {now : Int}
    {resolveAsset : String → Option String} {a : Activity}
    (h : updatePresence cfg (some m) acts now resolveAsset = Emission.activity a) :
    a.timestamps = mkTimestamps cfg m now := by
  unfold updatePresence at h
  dsimp only at h
  split at h
  · exact absurd h (by simp)
  · split at h
    · exact absurd h (by simp)
    · split at h
      · exact absurd h (by simp)
      · simp only [Emission.activity.injEq] at h
        rw [← h]

/-- C1 counterexample: with source duration truthy (10,000 ticks) and
position 20,000 ticks (position > duration, which the spec admits upstream
may produce), the Jellyfin adapter computes progress = 200, outside [0,100];
and with the same truthy duration but the PositionTicks key absent, the
unguarded division makes progress NaN, which is not an integer in [0,100]
either.  The claim that computed progress is always an integer in [0,100]
is therefore false. -/
theorem progress_counterexample :
    ((fetchJellyfinData cfgJelly (FetchResult.response true (some [sessOverrun]))).bind
      MediaData.progress) = some (JsNum.int 200)
    ∧ ¬(200 ≤ 100)
    ∧ ((fetchJellyfinData cfgJelly (FetchResult.response true (some [sessNoPos]))).bind
      MediaData.progress) = some JsNum.nan :=
  ⟨by decide, by decide, by decide⟩

/-- C1 (amended): whenever the source duration is zero or missing the
progress field is absent (so no division by zero occurs); when the duration
is truthy, progress is the unguarded JS division round: NaN when the raw
position key is absent, and otherwise the integer round of
100*position/duration, which lies in [0,100] whenever position ≤ duration
(it can exceed 100 when upstream data violates position ≤ duration). -/
theorem progress_spec :
    (∀ p d, d ≠ 0 → p ≤ d → jsRound100 p d ≤ 100)
    ∧ (∀ cfg resp m, fetchJellyfinData cfg resp = some m →
        ∃ sessions s item,
          resp = FetchResult.response true (some sessions) ∧ s ∈ sessions ∧
          s.NowPlayingItem = some item ∧
          (item.RunTimeTicks = 0 → m.progress = none) ∧
          (item.RunTimeTicks ≠ 0 →
            m.progress = some (jsRoundDiv100 s.PlayState.PositionTicks item.RunTimeTicks) ∧
            (s.PlayState.PositionTicks = none → m.progress = some JsNum.nan) ∧
            (∀ p, s.PlayState.PositionTicks = some p →
              m.progress = some (JsNum.int (jsRound100 p item.RunTimeTicks)) ∧
              (p ≤ item.RunTimeTicks → jsRound100 p item.RunTimeTicks ≤ 100))))
    ∧ (∀ cfg resp m, fetchPlexData cfg resp = some m →
        ∃ metadata s,
          resp = FetchResult.response true (some metadata) ∧ s ∈ metadata ∧
          (natTruthy s.duration = false → m.progress = none) ∧
          (∀ d, s.duration = some d → d ≠ 0 →
            m.progress = some (jsRoundDiv100 s.viewOffset d) ∧
            (s.viewOffset = none → m.progress = some JsNum.nan) ∧
            (∀ p, s.viewOffset = some p →
              m.progress = some (JsNum.int (jsRound100 p d)) ∧
              (p ≤ d → jsRound100 p d ≤ 100)))) := by
  refine ⟨jsRound100_le, ?_, ?_⟩
  · intro cfg resp m h
    obtain ⟨sessions, s, item, hresp, hfind, hitem, hm⟩ := fetchJellyfinData_eq_some h
    refine ⟨sessions, s, item, hresp, List.mem_of_find?_eq_some hfind, hitem, ?_, ?_⟩
    · intro hr0
      rw [hm, jellyfinMedia_progress]
      simp [hr0]
    · intro hr
      have hp : m.progress = some (jsRoundDiv100 s.PlayState.PositionTicks item.RunTimeTicks) := by
        rw [hm, jellyfinMedia_progress]
        simp [hr]
      refine ⟨hp, ?_, ?_⟩
      · intro hnone
        rw [hp, hnone]
        rfl
      · intro p hpos
        constructor
        · rw [hp, hpos]
          rfl
        · intro hle
          exact jsRound100_le _ _ hr hle
  · intro cfg resp m h
    obtain ⟨metadata, s, hresp, hhead, hm⟩ := fetchPlexData_eq_some h
    refine ⟨metadata, s, hresp, mem_of_head?_eq_some hhead, ?_, ?_⟩
    · intro hfalsy
      rw [hm, plexMedia_progress, if_neg]
      rw [hfalsy]
      intro hc
      cases hc
    · intro d hd hd0
      have htr : natTruthy s.duration = true := by
        rw [hd]
        simp [natTruthy, hd0]
      have hp : m.progress = some (jsRoundDiv100 s.viewOffset d) := by
        rw [hm, plexMedia_progress, if_pos htr, hd]
        rfl
      refine ⟨hp, ?_, ?_⟩
      · intro hnone
        rw [hp, hnone]
        rfl
      · intro p hpos
        constructor
        · rw [hp, hpos]
          rfl
        · intro hle
          exact jsRound100_le _ _ hd0 hle

/-- Witness for C1 (amended) at a concrete well-formed Jellyfin session. -/
theorem progress_spec_witness :
    ∃ sessions s item,
      respEpisodePaused = FetchResult.response true (some sessions) ∧ s ∈ sessions ∧
      s.NowPlayingItem = some item ∧
      (item.RunTimeTicks = 0 →
        (jellyfinMedia cfgJelly sessEpisodePaused itemEpisode).progress = none) ∧
      (item.RunTimeTicks ≠ 0 →
        (jellyfinMedia cfgJelly sessEpisodePaused itemEpisode).progress =
          some (jsRoundDiv100 s.PlayState.PositionTicks item.RunTimeTicks) ∧
        (s.PlayState.PositionTicks = none →
          (jellyfinMedia cfgJelly sessEpisodePaused itemEpisode).progress = some JsNum.nan) ∧
        (∀ p, s.PlayState.PositionTicks = some p →
          (jellyfinMedia cfgJelly sessEpisodePaused itemEpisode).progress =
            some (JsNum.int (jsRound100 p item.RunTimeTicks)) ∧
          (p ≤ item.RunTimeTicks → jsRound100 p item.RunTimeTicks ≤ 100))) :=
  progress_spec.2.1 cfgJelly respEpisodePaused
    (jellyfinMedia cfgJelly sessEpisodePaused itemEpisode) (by rfl)

/-- C2: both adapters are total functions into `Option MediaData` (nothing
escapes their boundary in this embedding), and they return `none` when the
server URL or credential is unset, on transport error, on a non-ok response,
on a malformed body, and when no active session is found. -/
theorem adapters_null_on_failure :
    (∀ cfg jr pr, cfg.serverUrl = "" ∨ cfg.apiKey = "" →
        fetchJellyfinData cfg jr = none ∧ fetchPlexData cfg pr = none)
    ∧ (∀ cfg, fetchJellyfinData cfg FetchResult.transportError = none
        ∧ fetchPlexData cfg FetchResult.transportError = none)
    ∧ (∀ cfg bj bp, fetchJellyfinData cfg (FetchResult.response false bj) = none
        ∧ fetchPlexData cfg (FetchResult.response false bp) = none)
    ∧ (∀ cfg, fetchJellyfinData cfg (FetchResult.response true none) = none
        ∧ fetchPlexData cfg (FetchResult.response true none) = none)
    ∧ (∀ cfg sessions, sessions.find? (fun s => s.NowPlayingItem.isSome) = none →
        fetchJellyfinData cfg (FetchResult.response true (some sessions)) = none)
    ∧ (∀ cfg, fetchPlexData cfg (FetchResult.response true (some [])) = none) := by
  refine ⟨?_, ?_, ?_, ?_, ?_, ?_⟩
  · intro cfg jr pr hcfg
    constructor
    · unfold fetchJellyfinData; rw [if_pos hcfg]
    · unfold fetchPlexData; rw [if_pos hcfg]
  · intro cfg
    constructor <;> (first | (unfold fetchJellyfinData; split <;> rfl) | (unfold fetchPlexData; split <;> rfl))
  · intro cfg bj bp
    constructor
    · unfold fetchJellyfinData; split; · rfl
      · simp
    · unfold fetchPlexData; split; · rfl
      · simp
  · intro cfg
    constructor
    · unfold fetchJellyfinData; split <;> simp
    · unfold fetchPlexData; split <;> simp
  · intro cfg sessions hf
    unfold fetchJellyfinData; split; · rfl
    · simp [hf]
  · intro cfg
    unfold fetchPlexData; split; · rfl
    · simp

/-- Witness for C2 at a configuration with an unset server URL. -/
theorem adapters_null_on_failure_witness :
    fetchJellyfinData cfgEmptyUrl FetchResult.transportError = none
    ∧ fetchPlexData cfgEmptyUrl FetchResult.transportError = none :=
  adapters_null_on_failure.1 cfgEmptyUrl FetchResult.transportError FetchResult.transportError
    (Or.inl rfl)

/-- C3: when hideWhenPaused is set and the adapter result is paused, the
poll cycle emits exactly a clear signal, never a populated activity. -/
theorem poll_clear_when_paused_hidden
    (cfg : Config) (jr : FetchResult (List JellySession)) (pr : FetchResult (List PlexSession))
    (acts : List ActivityEntry) (now : Int) (resolveAsset : String → Option String)
    (m : MediaData) (hres : adapterFetch cfg jr pr = some m)
    (hpaused : m.isPaused = true) (hhide : cfg.hideWhenPaused = true) :
    poll cfg jr pr acts now resolveAsset = Emission.clear := by
  unfold poll
  rw [hres]
  unfold updatePresence
  dsimp only
  rw [if_pos ⟨hpaused, hhide⟩]

/-- Witness for C3 at a concrete paused Jellyfin episode session. -/
theorem poll_clear_when_paused_hidden_witness :
    poll cfgJelly respEpisodePaused (FetchResult.response true (some []))
      [] 0 (fun _ => none) = Emission.clear :=
  poll_clear_when_paused_hidden cfgJelly respEpisodePaused (FetchResult.response true (some []))
    [] 0 (fun _ => none) (jellyfinMedia cfgJelly sessEpisodePaused itemEpisode)
    (by rfl) (by rfl) (by rfl)

/-- C4: when hideWhenOtherActivity is set and the sink's activity list holds
an entry with a different application id, the poll cycle emits clear,
whatever the adapter returned (absent, paused or playing media). -/
theorem poll_clear_when_other_activity
    (cfg : Config) (jr : FetchResult (List JellySession)) (pr : FetchResult (List PlexSession))
    (acts : List ActivityEntry) (now : Int) (resolveAsset : String → Option String)
    (hhide : cfg.hideWhenOtherActivity = true)
    (hother : acts.any (fun a => a.application_id ≠ DISCORD_APP_ID) = true) :
    poll cfg jr pr acts now resolveAsset = Emission.clear := by
  unfold poll
  rcases adapterFetch cfg jr pr with _ | m
  · rfl
  · unfold updatePresence
    dsimp only
    split
    · rfl
    · rw [if_pos ⟨hhide, hother⟩]

/-- Witness for C4 at a concrete foreign activity entry. -/
theorem poll_clear_when_other_activity_witness :
    poll { cfgJelly with hideWhenOtherActivity := true } respEpisodePaused
      (FetchResult.response true (some [])) [⟨"999"⟩] 0 (fun _ => none) = Emission.clear :=
  poll_clear_when_other_activity { cfgJelly with hideWhenOtherActivity := true }
    respEpisodePaused (FetchResult.response true (some [])) [⟨"999"⟩] 0 (fun _ => none)
    (by rfl) (by decide)

/-- C5 counterexample: buildState does not always return the episode title
for an Episode — with an empty episode title the joined parts string is
empty and the code falls back to "Watching", which differs from the title. -/
theorem getState_empty_title :
    getState { title := "", type := MediaType.episode, isPaused := false } = "Watching"
    ∧ ("Watching" : String) ≠ "" := ⟨by decide, by decide⟩

/-- C5 (amended): the prepend list never holds more than one entry, so the
join separator never appears in any output and the source's (mojibake)
separator literal is observationally equal to the middle dot; buildState
returns the episode title when type is Episode and the title is non-empty
(an empty title falls back to "Watching"), "from {albumTitle}" when type is
Audio and the album title is present and non-empty, and "Watching"
otherwise; in particular "Pilot" for an Episode titled "Pilot",
"from Abbey Road" for Audio with album "Abbey Road", and "Watching" for a
Movie with no extra context. -/
theorem getState_spec :
    (∀ m, (stateParts m).length ≤ 1)
    ∧ (∀ m, String.intercalate stateSep (stateParts m) =
        String.intercalate (" • ") (stateParts m))
    ∧ (∀ m, m.type = MediaType.episode → m.title ≠ "" → getState m = m.title)
    ∧ (∀ m, m.type = MediaType.episode → m.title = "" → getState m = "Watching")
    ∧ (∀ m a, m.type = MediaType.audio → m.albumTitle = some a → a ≠ "" →
        getState m = "from " ++ a)
    ∧ (∀ m, m.type ≠ MediaType.episode →
        ¬(m.type = MediaType.audio ∧ strTruthy m.albumTitle = true) → getState m = "Watching")
    ∧ getState { title := "Pilot", type := MediaType.episode, isPaused := false } = "Pilot"
    ∧ getState { title := "x", type := MediaType.audio, isPaused := false, albumTitle := some "Abbey Road" } = "from Abbey Road"
    ∧ getState { title := "A Movie", type := MediaType.movie, isPaused := false } =
        "Watching" := by
  refine ⟨?_, ?_, ?_, ?_, ?_, ?_, by decide, by decide, by decide⟩
  · intro m
    rw [stateParts_cases]
    split
    · simp
    · split <;> simp
  · intro m
    rw [stateParts_cases]
    split
    · simp [intercalate_singleton]
    · split <;> simp [intercalate_singleton, intercalate_nil]
  · intro m htype htitle
    unfold getState
    rw [stateParts_cases]
    simp [htype, intercalate_singleton, htitle]
  · intro m htype htitle
    unfold getState
    rw [stateParts_cases]
    simp [htype, intercalate_singleton, htitle]
  · intro m a htype halbum ha
    unfold getState
    rw [stateParts_cases]
    have hne : m.type = MediaType.episode → False := by rw [htype]; intro h; cases h
    simp [htype, halbum, hne, intercalate_singleton, strTruthy, ha, from_append_ne_empty]
  · intro m hep hau
    unfold getState
    rw [stateParts_cases]
    rw [if_neg hep, if_neg hau]
    simp [intercalate_nil]

/-- Witness for C5 (amended) at an Episode with the non-empty title "Pilot". -/
theorem getState_spec_witness :
    getState { title := "Pilot", type := MediaType.episode, isPaused := false } =
      ({ title := "Pilot", type := MediaType.episode, isPaused := false } : MediaData).title :=
  getState_spec.2.2.1 { title := "Pilot", type := MediaType.episode, isPaused := false }
    rfl (by decide)

/-- C6: formatEpisodeNumber returns "" when season or episode is missing or
zero, and otherwise "Season {s} Episode {e}" (natural), "S{ss}E{ee}" with
both numbers zero-padded to two digits (short), or "{s}x{ee}" with only the
episode padded (minimal); in particular (0,5,*) = "", (1,0,*) = "",
(1,2,short) = "S01E02", (1,2,minimal) = "1x02",
(1,2,natural) = "Season 1 Episode 2". -/
theorem formatEpisodeNumber_spec :
    (∀ fmt season episode, natTruthy season = false ∨ natTruthy episode = false →
      formatEpisodeNumber fmt season episode = "")
    ∧ (∀ fmt s e, s ≠ 0 → e ≠ 0 →
        formatEpisodeNumber fmt (some s) (some e) =
          match fmt with
          | .short => "S" ++ pad2 s ++ "E" ++ pad2 e
          | .minimal => toString s ++ "x" ++ pad2 e
          | .natural => "Season " ++ toString s ++ " Episode " ++ toString e)
    ∧ (∀ fmt, formatEpisodeNumber fmt (some 0) (some 5) = ""
        ∧ formatEpisodeNumber fmt (some 1) (some 0) = ""
        ∧ formatEpisodeNumber fmt none (some 5) = ""
        ∧ formatEpisodeNumber fmt (some 1) none = "")
    ∧ formatEpisodeNumber DisplayFormat.short (some 1) (some 2) = "S01E02"
    ∧ formatEpisodeNumber DisplayFormat.minimal (some 1) (some 2) = "1x02"
    ∧ formatEpisodeNumber DisplayFormat.natural (some 1) (some 2) = "Season 1 Episode 2" := by
  refine ⟨?_, ?_, ?_, by decide, by decide, by decide⟩
  · intro fmt season episode hfalsy
    unfold formatEpisodeNumber
    rw [if_pos hfalsy]
  · intro fmt s e hs he
    unfold formatEpisodeNumber
    rw [if_neg]
    · rcases fmt <;> simp
    · simp [natTruthy, hs, he]
  · intro fmt
    rcases fmt <;> exact ⟨by decide, by decide, by decide, by decide⟩

/-- Witness for C6 at season 0. -/
theorem formatEpisodeNumber_spec_witness :
    formatEpisodeNumber DisplayFormat.natural (some 0) (some 5) = "" :=
  formatEpisodeNumber_spec.1 DisplayFormat.natural (some 0) (some 5) (Or.inl rfl)

/-- C7: an activity emitted by a poll cycle carries timestamps exactly when
showTimestamps is set and a duration is known, with start = now - position
(position defaulting to 0 when absent) and end = now + (duration -
position); otherwise no timestamps are attached. -/
theorem timestamps_spec
    (cfg : Config) (m : MediaData) (acts : List ActivityEntry) (now : Int)
    (resolveAsset : String → Option String) (a : Activity)
    (h : updatePresence cfg (some m) acts now resolveAsset = Emission.activity a) :
    (cfg.showTimestamps = true → natTruthy m.duration = true →
      a.timestamps = some { start := now - (m.position.getD 0 : Nat)
                            endTs := now + ((m.duration.getD 0 : Int) - (m.position.getD 0 : Nat)) })
    ∧ (cfg.showTimestamps = false ∨ natTruthy m.duration = false →
      a.timestamps = none) := by
  have ht := updatePresence_activity_timestamps h
  constructor
  · intro hshow hdur
    rw [ht]
    unfold mkTimestamps
    rw [if_pos ⟨hshow, hdur⟩]
  · intro hneg
    rw [ht]
    unfold mkTimestamps
    rw [if_neg]
    rintro ⟨h1, h2⟩
    rcases hneg with h | h
    · rw [h1] at h; exact absurd h (by decide)
    · rw [h2] at h; exact absurd h (by decide)

/-- Witness for C7: the movie fixture at clock 1000 with duration 100 and
position 40 gets start = 960 and end = 1060. -/
theorem timestamps_spec_witness :
    actMovieTs.timestamps = some { start := (960 : Int), endTs := (1060 : Int) } :=
  ((timestamps_spec cfgJelly mMovieTs [] 1000 (fun _ => none) actMovieTs (by decide)).1
    rfl rfl).trans (by decide)

/-- C8: stop() delivers exactly one clear emission to the sink (timer
running or not), resets the timer handle to empty, hands any live timer
handle to clearInterval, and after it returns no scheduler tick emits
anything. -/
theorem stop_behaviour (st : ControllerState) :
    st.stop.2 = [Emission.clear]
    ∧ st.stop.1.interval = none
    ∧ (∀ h, st.interval = some h → h ∈ st.stop.1.cancelled)
    ∧ (∀ em n, runTicks st.stop.1 em n = []) := by
  have hint : st.stop.1.interval = none := by
    unfold ControllerState.stop
    rcases st with ⟨_ | h, c⟩ <;> rfl
  refine ⟨rfl, hint, ?_, ?_⟩
  · intro h hh
    unfold ControllerState.stop
    rw [hh]
    simp
  · intro em n
    induction n with
    | zero => rfl
    | succ k ih =>
      unfold runTicks
      rw [ih]
      unfold tickEmissions
      rw [hint]
      rfl

/-- Witness for C8 at a state holding the live timer handle 5. -/
theorem stop_behaviour_witness :
    (ControllerState.stop ⟨some 5, []⟩).2 = [Emission.clear]
    ∧ (ControllerState.stop ⟨some 5, []⟩).1.interval = none
    ∧ 5 ∈ (ControllerState.stop ⟨some 5, []⟩).1.cancelled
    ∧ runTicks (ControllerState.stop ⟨some 5, []⟩).1 Emission.clear 3 = [] :=
  ⟨(stop_behaviour ⟨some 5, []⟩).1,
   (stop_behaviour ⟨some 5, []⟩).2.1,
   (stop_behaviour ⟨some 5, []⟩).2.2.1 5 rfl,
   (stop_behaviour ⟨some 5, []⟩).2.2.2 Emission.clear 3⟩

/-- C9: the Jellyfin ticks-to-milliseconds conversion is exact integer
(floor) division by 10,000; 50,000,000 ticks convert to 5,000 ms; and the
adapter applies it to both the duration and the position fields. -/
theorem ticks_conversion_ok :
    (∀ t, toMs t = t / 10000)
    ∧ toMs 50000000 = 5000
    ∧ (∀ cfg s item, item.RunTimeTicks ≠ 0 →
        (jellyfinMedia cfg s item).duration = some (item.RunTimeTicks / 10000))
    ∧ (∀ cfg s item p, s.PlayState.PositionTicks = some p → p ≠ 0 →
        (jellyfinMedia cfg s item).position = some (p / 10000)) := by
  refine ⟨fun t => rfl, by decide, ?_, ?_⟩
  · intro cfg s item hr
    rw [jellyfinMedia_duration]
    simp [hr, toMs]
  · intro cfg s item p hp hp0
    rw [jellyfinMedia_position, hp]
    simp [natTruthy, hp0, toMs]

/-- Witness for C9: the 50,000,000-tick episode maps to duration 5,000 ms,
and its 10,000,000-tick position to 1,000 ms. -/
theorem ticks_conversion_ok_witness :
    (jellyfinMedia cfgJelly sessEpisodePaused itemEpisode).duration = some 5000
    ∧ (jellyfinMedia cfgJelly sessEpisodePaused itemEpisode).position = some 1000 :=
  ⟨(ticks_conversion_ok.2.2.1 cfgJelly sessEpisodePaused itemEpisode (by decide)).trans
    (by decide),
   (ticks_conversion_ok.2.2.2 cfgJelly sessEpisodePaused itemEpisode 10000000 rfl
      (by decide)).trans
    (by decide)⟩

/-- C10: every MediaData either adapter produces keeps fields outside the
active type's variant absent: series/season/episode only for Episode,
artist/albumArtist/albumTitle only for Audio, photographer only for Photo. -/
theorem adapters_variant_fields :
    (∀ cfg resp m, fetchJellyfinData cfg resp = some m → variantOnly m)
    ∧ (∀ cfg resp m, fetchPlexData cfg resp = some m → variantOnly m) := by
  constructor
  · intro cfg resp m h
    obtain ⟨sessions, s, item, _, _, _, hm⟩ := fetchJellyfinData_eq_some h
    rw [hm]
    exact jellyfinMedia_variantOnly cfg s item
  · intro cfg resp m h
    obtain ⟨metadata, s, _, _, hm⟩ := fetchPlexData_eq_some h
    rw [hm]
    exact plexMedia_variantOnly cfg s

/-- Witness for C10 at the concrete episode session. -/
theorem adapters_variant_fields_witness :
    variantOnly (jellyfinMedia cfgJelly sessEpisodePaused itemEpisode) :=
  adapters_variant_fields.1 cfgJelly respEpisodePaused
    (jellyfinMedia cfgJelly sessEpisodePaused itemEpisode) (by rfl)
